import Mathlib

/-!
Verification development for the `gitgptapi` repository: a shallow embedding
of its two HTTP-triggered functions, `create_db/__init__.py` (resource
provisioner) and `list_db/__init__.py` (catalog lister), with theorems
settling the specification claims about them.

Conventions of the embedding:
* Python dictionaries from parsed JSON become the inductive `Json`.
* Exceptions become `Except String` results; an exception that escapes the
  handler (no surrounding `try`) is an `Except.error` result of the handler
  itself, while caught exceptions yield `.ok` HTTP responses.
* Calls into the Azure management SDKs are recorded in an explicit trace of
  `CloudCall` values, with their outcomes supplied by a `World` of oracles;
  the handler code never looks at anything but the recorded outcomes.
* Machine integers of the source are unbounded (`Nat`/`Int`): the only
  arithmetic is `int(time.time()) % 10000`, far from any overflow.
-/

namespace Gitgpt

/-- Parsed JSON values, as returned by `req.get_json()` (Python objects:
`None`, `bool`, numbers, `str`, `list`, `dict`). Numbers are modelled as
rationals; the code performs no arithmetic on them. -/
inductive Json where
  | null
  | bool (b : Bool)
  | num (q : Rat)
  | str (s : String)
  | arr (xs : List Json)
  | obj (kvs : List (String × Json))

/-- The body of a `func.HttpResponse`: either a plain string (all the error
paths) or a JSON payload (the success paths, which pass `json.dumps(...)`
of the given value). -/
inductive BodyContent where
  | text (s : String)
  | json (j : Json)

/-- Whether a response body is plain text rather than a serialized JSON
payload. -/
def BodyContent.isText : BodyContent → Bool
  | .text _ => true
  | .json _ => false

/-- `func.HttpResponse(body, mimetype=..., status_code=...)`; `mimetype` is
`none` when the call does not pass one (Python default, served as plain
text). -/
structure HttpResponse where
  body : BodyContent
  mimetype : Option String
  status : Nat

/-- Python truthiness of a parsed JSON value (`bool(v)`): `None`, `False`,
zero, and empty strings/lists/dicts are falsy. -/
def pyTruthy : Json → Bool
  | .null => false
  | .bool b => b
  | .num q => decide (q ≠ 0)
  | .str s => !s.isEmpty
  | .arr xs => !xs.isEmpty
  | .obj kvs => !kvs.isEmpty

/-- Whether a JSON value is a Python `str` (`isinstance(v, str)`). -/
def Json.isStr : Json → Bool
  | .str _ => true
  | _ => false

/-- The string carried by a JSON string value (only ever applied to values
known to be strings; other cases are unreachable). -/
def jStrVal : Option Json → String
  | some (.str s) => s
  | _ => ""

/-- Characters stripped by Python `str.strip()` with no argument (the ASCII
whitespace class; the titles of interest are ASCII). -/
def isPyWhitespace (c : Char) : Bool :=
  c == ' ' || c == '\t' || c == '\n' || c == '\x0d' || c == '\x0b' || c == '\x0c'

/-- Python `str.strip()`: remove leading and trailing whitespace. -/
def pyStrip (s : String) : String :=
  String.mk (((s.data.dropWhile isPyWhitespace).reverse.dropWhile isPyWhitespace).reverse)

/-- `req_body.get(key)` (and `.get(key, default)` via `Option.getD` at call
sites). On a Python object that is not a dict — any valid JSON body that is
not a JSON object — attribute lookup of `get` raises `AttributeError`,
which in `create_db.main` is not inside any `try`. -/
def jGet (j : Json) (k : String) : Except String (Option Json) :=
  match j with
  | .obj kvs => .ok ((kvs.find? (fun kv => kv.1 == k)).map (fun kv => kv.2))
  | _ => .error "AttributeError: body object has no attribute get"

/-- The title check of `create_db.main` line 57:
`not title or not isinstance(title, str) or not title.strip()`, with `title`
being `req_body.get("title")` (so `none` models Python `None`). The `or` is
short-circuit, so `.strip()` is only reached on strings. -/
def titleInvalid : Option Json → Bool
  | none => true
  | some v => !pyTruthy v || !v.isStr || (pyStrip (jStrVal (some v))).isEmpty

/-- Python `str.lower()`. Lean's `Char.toLower` agrees with Python on ASCII;
for characters outside ASCII the two case mappings can differ, but every
property proved below (and the filter that follows this call in the source)
is insensitive to what `lower` does, since non-`[a-z0-9]` output is
discarded. -/
def pyLower (s : String) : String :=
  String.mk (s.data.map Char.toLower)

/-- Membership in the character class `[a-z0-9]` of the regular expression
at `create_db/__init__.py` line 61. -/
def isLowerAlnum (c : Char) : Bool :=
  ('a' ≤ c && c ≤ 'z') || ('0' ≤ c && c ≤ '9')

/-- Line 61 of `create_db/__init__.py`:
`re.sub(r"[^a-z0-9]", "", title.lower())[:20]` — lower-case, drop every
character outside `[a-z0-9]`, keep the first 20 characters (Python slicing
on `str` counts code points, as `List.take` does here). -/
def sanitizeTitle (title : String) : String :=
  String.mk (((pyLower title).data.filter isLowerAlnum).take 20)

/-- The environment variables read by `create_db.main` (lines 63-68); each is
`none` when absent from the process environment, `some s` (possibly `s = ""`)
when set. -/
structure Env where
  azure_subscription_id : Option String
  azure_resource_group : Option String
  azure_location : Option String
  storage_account_base : Option String
  search_account_base : Option String
  search_index_name : Option String

/-- Python falsiness of an `os.environ.get` result: `None` or the empty
string (`not subscription_id or not resource_group`, line 70; also
`if not admin_key`, line 206). -/
def pyFalsyOptStr (o : Option String) : Bool :=
  match o with
  | none => true
  | some s => s.isEmpty

/-- The fixed storage-account creation parameters of
`storage_accounts.begin_create` (lines 126-131). -/
structure StorageCreateParams where
  sku : String
  kind : String
  location : String
  enable_https_traffic_only : Bool

/-- `CognitiveServicesAccountCreateParameters` as built at lines 193-197. -/
structure CogCreateParams where
  location : String
  sku : String
  kind : String

/-- The Azure Search field data types used by the index schema:
`Edm.String` and `Collection(Edm.Single)` (single-precision float). -/
inductive SearchFieldDataType where
  | string
  | collectionSingle

/-- A field of the search index, with the attributes the SDK models carry;
fields the code does not set keep the SDK defaults. -/
structure SearchField where
  name : String
  type : SearchFieldDataType
  key : Bool := false
  searchable : Bool := false
  filterable : Bool := false
  facetable : Bool := false
  analyzer_name : Option String := none
  vector_search_dimensions : Option Nat := none
  vector_search_configuration : Option String := none

/-- `VectorSearchAlgorithmConfiguration` as built at lines 216-224: a named
configuration of a given kind with the three HNSW parameters. -/
structure VectorSearchAlgorithmConfiguration where
  name : String
  kind : String
  m : Nat
  efConstruction : Nat
  efSearch : Nat

/-- `VectorSearch` (lines 214-226). -/
structure VectorSearch where
  algorithm_configurations : List VectorSearchAlgorithmConfiguration

/-- `SearchIndex` (lines 242-246). -/
structure SearchIndex where
  name : String
  fields : List SearchField
  vector_search : VectorSearch

/-- The `VectorSearch` value of lines 214-226: one configuration named
`my-vector-config` of kind `hnsw` with `m = 4`, `efConstruction = 400`,
`efSearch = 200`. -/
def buildVectorSearch : VectorSearch :=
  { algorithm_configurations :=
      [{ name := "my-vector-config", kind := "hnsw",
         m := 4, efConstruction := 400, efSearch := 200 }] }

/-- The `fields` list of lines 228-240. `SimpleField` leaves `searchable`
false; `SearchableField` is searchable (the code also passes
`searchable=True` explicitly). -/
def buildSearchIndexFields : List SearchField :=
  [ { name := "id", type := .string, key := true },
    { name := "content", type := .string, searchable := true,
      analyzer_name := some "en.lucene" },
    { name := "metadata_author", type := .string, filterable := true, facetable := true },
    { name := "metadata_category", type := .string, filterable := true, facetable := true },
    { name := "contentVector", type := .collectionSingle, searchable := true,
      vector_search_dimensions := some 1536,
      vector_search_configuration := some "my-vector-config" } ]

/-- The `SearchIndex` handed to `create_or_update_index` (lines 242-249). -/
def buildSearchIndex (index_name : String) : SearchIndex :=
  { name := index_name, fields := buildSearchIndexFields,
    vector_search := buildVectorSearch }

/-- `{"AZURE_STORAGE_URL", "AZURE_STORAGE_NAME", "AZURE_STORAGE_KEY"}` —
return value of `create_storage_account` (lines 140-144). -/
structure StorageConfig where
  AZURE_STORAGE_URL : String
  AZURE_STORAGE_NAME : String
  AZURE_STORAGE_KEY : String

/-- `{"search_endpoint", "search_admin_key", "index_name"}` — return value
of `create_vector_database_and_index` (lines 252-256). -/
structure VectorSearchConfig where
  search_endpoint : String
  search_admin_key : String
  index_name : String

/-- One call into the Azure SDKs (client construction, management-plane and
index-management operations), recorded in order of issue. -/
inductive CloudCall where
  | mkCredential
  | mkStorageClient (subscription_id : String)
  | mkCogClient (subscription_id : String)
  | storageGetProps (resource_group name : String)
  | storageBeginCreate (resource_group name : String) (params : StorageCreateParams)
  | storageListKeys (resource_group name : String)
  | cogGet (resource_group name : String)
  | cogBeginCreate (resource_group name : String) (params : CogCreateParams)
  | cogListKeys (resource_group name : String)
  | mkSearchClient (endpoint : String)
  | createOrUpdateIndex (endpoint : String) (index : SearchIndex)

/-- Oracles for the outcome of each fallible external operation: `.ok`
models normal completion (with the value the SDK returns), `.error` a raised
exception with its message. The handler's behaviour is a pure function of
these outcomes. -/
structure World where
  credential : Except String Unit
  storageGetProps : String → String → Except String Unit
  storageBeginCreate : String → String → StorageCreateParams → Except String Unit
  storageListKeys : String → String → Except String String
  cogGet : String → String → Except String Unit
  cogBeginCreate : String → String → CogCreateParams → Except String Unit
  cogListKeys : String → String → Except String String
  createOrUpdateIndex : String → SearchIndex → Except String Unit

/-- `create_storage_account` (lines 116-147). The inner `try` treats any
`get_properties` failure as "does not exist" and falls through to
`begin_create`; the outer `try` only logs and re-raises, so errors
propagate unchanged. `list_keys` runs in either case, and the result is the
blob endpoint URL, the name and the primary key. -/
def create_storage_account (w : World) (resource_group_name storage_name location : String) :
    Except String StorageConfig × List CloudCall :=
  match w.storageGetProps resource_group_name storage_name with
  | .ok _ =>
    match w.storageListKeys resource_group_name storage_name with
    | .error e =>
      (.error e,
       [.storageGetProps resource_group_name storage_name,
        .storageListKeys resource_group_name storage_name])
    | .ok key =>
      (.ok { AZURE_STORAGE_URL := "https://" ++ storage_name ++ ".blob.core.windows.net",
             AZURE_STORAGE_NAME := storage_name,
             AZURE_STORAGE_KEY := key },
       [.storageGetProps resource_group_name storage_name,
        .storageListKeys resource_group_name storage_name])
  | .error _ =>
    match w.storageBeginCreate resource_group_name storage_name
        { sku := "Standard_LRS", kind := "StorageV2", location := location,
          enable_https_traffic_only := true } with
    | .error e =>
      (.error e,
       [.storageGetProps resource_group_name storage_name,
        .storageBeginCreate resource_group_name storage_name
          { sku := "Standard_LRS", kind := "StorageV2", location := location,
            enable_https_traffic_only := true }])
    | .ok _ =>
      match w.storageListKeys resource_group_name storage_name with
      | .error e =>
        (.error e,
         [.storageGetProps resource_group_name storage_name,
          .storageBeginCreate resource_group_name storage_name
            { sku := "Standard_LRS", kind := "StorageV2", location := location,
              enable_https_traffic_only := true },
          .storageListKeys resource_group_name storage_name])
      | .ok key =>
        (.ok { AZURE_STORAGE_URL := "https://" ++ storage_name ++ ".blob.core.windows.net",
               AZURE_STORAGE_NAME := storage_name,
               AZURE_STORAGE_KEY := key },
         [.storageGetProps resource_group_name storage_name,
          .storageBeginCreate resource_group_name storage_name
            { sku := "Standard_LRS", kind := "StorageV2", location := location,
              enable_https_traffic_only := true },
          .storageListKeys resource_group_name storage_name])

/-- The admin-key step of `create_vector_database_and_index`
(lines 206-209): fetch the primary key only when the passed `admin_key` is
falsy (Python `if not admin_key:`). -/
def resolveAdminKey (w : World) (resource_group_name search_account_name : String)
    (admin_key : Option String) : Except String String × List CloudCall :=
  if pyFalsyOptStr admin_key then
    match w.cogListKeys resource_group_name search_account_name with
    | .error e => (.error e, [.cogListKeys resource_group_name search_account_name])
    | .ok k => (.ok k, [.cogListKeys resource_group_name search_account_name])
  else
    (.ok (admin_key.getD ""), [])

/-- Lines 206-256 of `create_vector_database_and_index`, after the service
has been ensured to exist: resolve the admin key, build the
`SearchIndexClient` on the service endpoint, issue `create_or_update_index`
with the fixed schema, and return endpoint, admin key and index name.
`tr` is the trace accumulated by the service-ensuring phase. -/
def vector_index_phase (w : World)
    (resource_group_name search_account_name index_name : String)
    (admin_key : Option String) (tr : List CloudCall) :
    Except String VectorSearchConfig × List CloudCall :=
  match resolveAdminKey w resource_group_name search_account_name admin_key with
  | (.error e, ktr) => (.error e, tr ++ ktr)
  | (.ok key, ktr) =>
    let endpoint := "https://" ++ search_account_name ++ ".search.windows.net"
    let index := buildSearchIndex index_name
    match w.createOrUpdateIndex endpoint index with
    | .error e =>
      (.error e, tr ++ ktr ++ [.mkSearchClient endpoint, .createOrUpdateIndex endpoint index])
    | .ok _ =>
      (.ok { search_endpoint := endpoint, search_admin_key := key,
             index_name := index_name },
       tr ++ ktr ++ [.mkSearchClient endpoint, .createOrUpdateIndex endpoint index])

/-- `create_vector_database_and_index` (lines 179-260): probe the service
with `accounts.get` (any failure means "absent" and triggers
`begin_create`), then run `vector_index_phase`. The outer `try` only logs
and re-raises. -/
def create_vector_database_and_index (w : World)
    (resource_group_name search_account_name location index_name : String)
    (admin_key : Option String) :
    Except String VectorSearchConfig × List CloudCall :=
  match w.cogGet resource_group_name search_account_name with
  | .ok _ =>
    vector_index_phase w resource_group_name search_account_name index_name admin_key
      [.cogGet resource_group_name search_account_name]
  | .error _ =>
    match w.cogBeginCreate resource_group_name search_account_name
        { location := location, sku := "S1", kind := "Search" } with
    | .error e =>
      (.error e,
       [.cogGet resource_group_name search_account_name,
        .cogBeginCreate resource_group_name search_account_name
          { location := location, sku := "S1", kind := "Search" }])
    | .ok _ =>
      vector_index_phase w resource_group_name search_account_name index_name admin_key
        [.cogGet resource_group_name search_account_name,
         .cogBeginCreate resource_group_name search_account_name
           { location := location, sku := "S1", kind := "Search" }]

/-- JSON serialization of `StorageConfig` (the dict literal of
lines 140-144, serialized by `json.dumps` at line 106). -/
def storageConfigJson (c : StorageConfig) : Json :=
  .obj [("AZURE_STORAGE_URL", .str c.AZURE_STORAGE_URL),
        ("AZURE_STORAGE_NAME", .str c.AZURE_STORAGE_NAME),
        ("AZURE_STORAGE_KEY", .str c.AZURE_STORAGE_KEY)]

/-- JSON serialization of `VectorSearchConfig` (lines 252-256). -/
def vectorSearchConfigJson (c : VectorSearchConfig) : Json :=
  .obj [("search_endpoint", .str c.search_endpoint),
        ("search_admin_key", .str c.search_admin_key),
        ("index_name", .str c.index_name)]

/-- The 500 response of the catch-all handler `except Exception as e:`
(`f"Error: {e}"`, line 113 of `create_db` and line 148 of `list_db`). -/
def exceptionResponse (e : String) : HttpResponse :=
  { body := .text ("Error: " ++ e), mimetype := none, status := 500 }

/-- `f"{base}{int(time.time()) % 10000}"` — the candidate resource name
built at lines 82 and 90: the configured base with the current unix time
modulo 10000 appended. -/
def timeSuffixedName (base : String) (t : Nat) : String :=
  base ++ toString (t % 10000)

/-- `create_db.main` (lines 45-113). Arguments: `body` is the outcome of
`req.get_json()` (`.error` = `ValueError`, caught at line 50); `env` the
process environment; `t1`, `t2` the unix times observed by the two
`int(time.time())` calls (lines 82 and 90); `w` the SDK oracles. The result
pairs the handler's outcome — `.ok` a returned `HttpResponse`, `.error` an
exception that escapes `main` (the `AttributeError` of `.get` on a
non-dict body, raised outside every `try`) — with the trace of SDK calls
issued. -/
def create_db_main (body : Except Unit Json) (env : Env) (t1 t2 : Nat) (w : World) :
    Except String HttpResponse × List CloudCall :=
  match body with
  | .error _ => (.ok { body := .text "Invalid JSON body", mimetype := none, status := 400 }, [])
  | .ok req_body =>
    match jGet req_body "title" with
    | .error e => (.error e, [])
    | .ok title =>
      if titleInvalid title then
        (.ok { body := .text "Missing or invalid 'title' in request body",
               mimetype := none, status := 400 }, [])
      else
        -- line 61: computed from the title, but never used afterwards
        let sanitized_title := sanitizeTitle (jStrVal title)
        let subscription_id := env.azure_subscription_id
        let resource_group := env.azure_resource_group
        let location := env.azure_location.getD "eastus"
        let storage_account_base := env.storage_account_base.getD "mystorageacct"
        let search_account_base := env.search_account_base.getD "mysearchacct"
        let index_name := env.search_index_name.getD "rag-vector-index"
        if (pyFalsyOptStr subscription_id || pyFalsyOptStr resource_group) = true then
          (.ok { body := .text "Missing required environment variables: AZURE_SUBSCRIPTION_ID or AZURE_RESOURCE_GROUP",
                 mimetype := none, status := 500 }, [])
        else
          let sub := subscription_id.getD ""
          let rg := resource_group.getD ""
          let clientTrace : List CloudCall :=
            [.mkCredential, .mkStorageClient sub, .mkCogClient sub]
          match w.credential with
          | .error e => (.ok (exceptionResponse e), [.mkCredential])
          | .ok _ =>
            let storage_account_name := timeSuffixedName storage_account_base t1
            match create_storage_account w rg storage_account_name location with
            | (.error e, tr1) => (.ok (exceptionResponse e), clientTrace ++ tr1)
            | (.ok storage_config, tr1) =>
              let search_account_name := timeSuffixedName search_account_base t2
              match create_vector_database_and_index w rg search_account_name location
                  index_name none with
              | (.error e, tr2) => (.ok (exceptionResponse e), clientTrace ++ tr1 ++ tr2)
              | (.ok vector_db_config, tr2) =>
                (.ok { body := .json (.obj
                         [("storage", storageConfigJson storage_config),
                          ("vector_search", vectorSearchConfigJson vector_db_config)]),
                       mimetype := some "application/json", status := 200 },
                 clientTrace ++ tr1 ++ tr2)

/-- The storage-account names mentioned by the storage management calls of a
trace. -/
def storageNamesUsed (tr : List CloudCall) : List String :=
  tr.filterMap fun c =>
    match c with
    | .storageGetProps _ n => some n
    | .storageBeginCreate _ n _ => some n
    | .storageListKeys _ n => some n
    | _ => none

/-- The search-service names mentioned by the cognitive-services management
calls of a trace. -/
def searchNamesUsed (tr : List CloudCall) : List String :=
  tr.filterMap fun c =>
    match c with
    | .cogGet _ n => some n
    | .cogBeginCreate _ n _ => some n
    | .cogListKeys _ n => some n
    | _ => none

/-- The index payloads handed to `create_or_update_index` in a trace. -/
def indexesSent (tr : List CloudCall) : List SearchIndex :=
  tr.filterMap fun c =>
    match c with
    | .createOrUpdateIndex _ idx => some idx
    | _ => none

/-- One row of the `databases` query (lines 29-46 of `list_db/__init__.py`).
Nullable columns are `Option`; `isPublic` and `vector_search_enabled` are
stored integers later passed through `bool(...)`; `lastUpdated` and
`uploadedAt` carry the ISO string of the stored datetime (the `.isoformat()`
call), `none` for SQL NULL; `rating` is the stored decimal as a rational
(`float(...)` is value conversion only). -/
structure DbRow where
  id : String
  name : String
  description : Option String
  type : Option String
  isPublic : Int
  lastUpdated : Option String
  documentCount : Int
  usageCount : Int
  rating : Option Rat
  owner_id : String
  vector_search_enabled : Option Int
  vector_search_endpoint : Option String
  vector_search_key : Option String
  vector_search_index : Option String
  vector_search_semantic_config : Option String
  vector_search_embedding_deployment : Option String
  vector_search_embedding_endpoint : Option String
  vector_search_embedding_key : Option String
  vector_search_storage_endpoint : Option String
  vector_search_storage_access_key : Option String
  vector_search_storage_connection_string : Option String

/-- One row of `SELECT id, name FROM users` (line 50). -/
structure UserRow where
  id : String
  name : String

/-- One row of the contributors join (lines 54-58). -/
structure ContribRow where
  database_id : String
  user_id : String
  name : String

/-- One row of the files query (lines 70-73). -/
structure FileRow where
  database_id : String
  name : String
  size : Int
  type : Option String
  uploadedAt : Option String

/-- One row of `SELECT database_id, tag FROM database_tags` (line 86). -/
structure TagRow where
  database_id : String
  tag : String

/-- `{"id": ..., "name": ...}` for a contributor, and `owner` in the
assembled entry. -/
structure Person where
  id : String
  name : String

/-- A file object of the assembled entry (lines 77-82). -/
structure FileOut where
  name : String
  size : Int
  type : Option String
  uploadedAt : Option String

/-- The dict comprehension `{u["id"]: u["name"] for u in ...}` (line 51):
a dict built left to right, later rows overwriting earlier ones; lookup of
an absent key is `none`. -/
def buildUsersMap (users : List UserRow) : String → Option String :=
  users.foldl (fun m u => fun k => if k = u.id then some u.name else m k) (fun _ => none)

/-- The `setdefault(key, []).append(value)` grouping loops (lines 62-92): a
map from key to the values of the rows with that key, in row order; absent
keys give `[]`, which is also what the later `.get(db_id, [])` defaults
to. -/
def buildGroupMap (rows : List α) (keyOf : α → String) (valOf : α → β) : String → List β :=
  rows.foldl (fun m r => fun k => if k = keyOf r then m k ++ [valOf r] else m k) (fun _ => [])

/-- `bool(db.get("vector_search_enabled", False))`: the column is always
selected, so the `.get` default is unreachable; SQL NULL (`None`) and 0 are
falsy. -/
def pyBoolOptInt (o : Option Int) : Bool :=
  match o with
  | none => false
  | some i => !(i == 0)

/-- One element of the output `databases` list (the dict literal of
lines 102-133), with the flat vector-search configuration fields. -/
structure CatalogEntry where
  id : String
  name : String
  description : Option String
  type : Option String
  owner : Person
  contributors : List Person
  isPublic : Bool
  tags : List String
  lastUpdated : Option String
  documentCount : Int
  usageCount : Int
  rating : Option Rat
  isSelected : Bool
  files : List FileOut
  VECTOR_SEARCH_ENABLED : Bool
  VECTOR_SEARCH_ENDPOINT : Option String
  VECTOR_SEARCH_KEY : Option String
  VECTOR_SEARCH_INDEX : Option String
  VECTOR_SEARCH_SEMANTIC_CONFIG : Option String
  VECTOR_SEARCH_EMBEDDING_DEPLOYMENT : Option String
  VECTOR_SEARCH_EMBEDDING_ENDPOINT : Option String
  VECTOR_SEARCH_EMBEDDING_KEY : Option String
  VECTOR_SEARCH_STORAGE_ENDPOINT : Option String
  VECTOR_SEARCH_STORAGE_ACCESS_KEY : Option String
  VECTOR_SEARCH_STORAGE_CONNECTION_STRING : Option String

/-- The entry built for one database row (lines 99-133): merge the row with
the looked-up owner name (default `"Unknown"`), contributor/file/tag
collections (default `[]`), and the constant `isSelected: False`. -/
def assembleEntry (users : String → Option String) (cmap : String → List Person)
    (fmap : String → List FileOut) (tmap : String → List String) (db : DbRow) :
    CatalogEntry :=
  { id := db.id
    name := db.name
    description := db.description
    type := db.type
    owner := { id := db.owner_id, name := (users db.owner_id).getD "Unknown" }
    contributors := cmap db.id
    isPublic := !(db.isPublic == 0)
    tags := tmap db.id
    lastUpdated := db.lastUpdated
    documentCount := db.documentCount
    usageCount := db.usageCount
    rating := db.rating
    isSelected := false
    files := fmap db.id
    VECTOR_SEARCH_ENABLED := pyBoolOptInt db.vector_search_enabled
    VECTOR_SEARCH_ENDPOINT := db.vector_search_endpoint
    VECTOR_SEARCH_KEY := db.vector_search_key
    VECTOR_SEARCH_INDEX := db.vector_search_index
    VECTOR_SEARCH_SEMANTIC_CONFIG := db.vector_search_semantic_config
    VECTOR_SEARCH_EMBEDDING_DEPLOYMENT := db.vector_search_embedding_deployment
    VECTOR_SEARCH_EMBEDDING_ENDPOINT := db.vector_search_embedding_endpoint
    VECTOR_SEARCH_EMBEDDING_KEY := db.vector_search_embedding_key
    VECTOR_SEARCH_STORAGE_ENDPOINT := db.vector_search_storage_endpoint
    VECTOR_SEARCH_STORAGE_ACCESS_KEY := db.vector_search_storage_access_key
    VECTOR_SEARCH_STORAGE_CONNECTION_STRING := db.vector_search_storage_connection_string }

/-- The contributors map of lines 62-67. -/
def contributorsMapOf (contribs : List ContribRow) : String → List Person :=
  buildGroupMap contribs (fun c => c.database_id) (fun c => { id := c.user_id, name := c.name })

/-- The files map of lines 75-82. -/
def filesMapOf (files : List FileRow) : String → List FileOut :=
  buildGroupMap files (fun f => f.database_id)
    (fun f => { name := f.name, size := f.size, type := f.type, uploadedAt := f.uploadedAt })

/-- The tags map of lines 90-92. -/
def tagsMapOf (tags : List TagRow) : String → List String :=
  buildGroupMap tags (fun t => t.database_id) (fun t => t.tag)

/-- The full output list (the loop of lines 98-133): one entry per database
row, in row order. -/
def listEntries (dbs : List DbRow) (users : List UserRow) (contribs : List ContribRow)
    (files : List FileRow) (tags : List TagRow) : List CatalogEntry :=
  dbs.map (assembleEntry (buildUsersMap users) (contributorsMapOf contribs)
    (filesMapOf files) (tagsMapOf tags))

/-- `Option String` to JSON (`None` serializes as `null`). -/
def optStrJson : Option String → Json
  | none => .null
  | some s => .str s

/-- `Option Rat` to JSON. -/
def optNumJson : Option Rat → Json
  | none => .null
  | some q => .num q

/-- The JSON object serialized for one entry: the dict literal of
lines 102-133, key for key. -/
def entryToJson (e : CatalogEntry) : Json :=
  .obj [("id", .str e.id),
        ("name", .str e.name),
        ("description", optStrJson e.description),
        ("type", optStrJson e.type),
        ("owner", .obj [("id", .str e.owner.id), ("name", .str e.owner.name)]),
        ("contributors", .arr (e.contributors.map fun p =>
          .obj [("id", .str p.id), ("name", .str p.name)])),
        ("isPublic", .bool e.isPublic),
        ("tags", .arr (e.tags.map Json.str)),
        ("lastUpdated", optStrJson e.lastUpdated),
        ("documentCount", .num e.documentCount),
        ("usageCount", .num e.usageCount),
        ("rating", optNumJson e.rating),
        ("isSelected", .bool e.isSelected),
        ("files", .arr (e.files.map fun f =>
          .obj [("name", .str f.name), ("size", .num f.size),
                ("type", optStrJson f.type), ("uploadedAt", optStrJson f.uploadedAt)])),
        ("VECTOR_SEARCH_ENABLED", .bool e.VECTOR_SEARCH_ENABLED),
        ("VECTOR_SEARCH_ENDPOINT", optStrJson e.VECTOR_SEARCH_ENDPOINT),
        ("VECTOR_SEARCH_KEY", optStrJson e.VECTOR_SEARCH_KEY),
        ("VECTOR_SEARCH_INDEX", optStrJson e.VECTOR_SEARCH_INDEX),
        ("VECTOR_SEARCH_SEMANTIC_CONFIG", optStrJson e.VECTOR_SEARCH_SEMANTIC_CONFIG),
        ("VECTOR_SEARCH_EMBEDDING_DEPLOYMENT", optStrJson e.VECTOR_SEARCH_EMBEDDING_DEPLOYMENT),
        ("VECTOR_SEARCH_EMBEDDING_ENDPOINT", optStrJson e.VECTOR_SEARCH_EMBEDDING_ENDPOINT),
        ("VECTOR_SEARCH_EMBEDDING_KEY", optStrJson e.VECTOR_SEARCH_EMBEDDING_KEY),
        ("VECTOR_SEARCH_STORAGE_ENDPOINT", optStrJson e.VECTOR_SEARCH_STORAGE_ENDPOINT),
        ("VECTOR_SEARCH_STORAGE_ACCESS_KEY", optStrJson e.VECTOR_SEARCH_STORAGE_ACCESS_KEY),
        ("VECTOR_SEARCH_STORAGE_CONNECTION_STRING",
          optStrJson e.VECTOR_SEARCH_STORAGE_CONNECTION_STRING)]

/-- `list_db.main` (lines 22-148). The connection attempt and the five
queries run in this order inside one `try`; the first raised exception
reaches the catch-all handler, which returns 500 with `f"Error: {e}"` as
plain text. On success the entries are assembled and returned as the JSON
body `{"databases": [...]}` with mimetype `application/json`. -/
def list_db_main (connect : Except String Unit)
    (qDatabases : Except String (List DbRow))
    (qUsers : Except String (List UserRow))
    (qContributors : Except String (List ContribRow))
    (qFiles : Except String (List FileRow))
    (qTags : Except String (List TagRow)) : HttpResponse :=
  match connect with
  | .error e => exceptionResponse e
  | .ok _ =>
    match qDatabases with
    | .error e => exceptionResponse e
    | .ok dbs =>
      match qUsers with
      | .error e => exceptionResponse e
      | .ok users =>
        match qContributors with
        | .error e => exceptionResponse e
        | .ok contribs =>
          match qFiles with
          | .error e => exceptionResponse e
          | .ok files =>
            match qTags with
            | .error e => exceptionResponse e
            | .ok tags =>
              { body := .json (.obj [("databases",
                  .arr ((listEntries dbs users contribs files tags).map entryToJson))]),
                mimetype := some "application/json", status := 200 }

/-- The message of the first failing step of `list_db.main`, in program
order (`none` when everything succeeds). -/
def firstQueryError (connect : Except String Unit)
    (qDatabases : Except String (List DbRow))
    (qUsers : Except String (List UserRow))
    (qContributors : Except String (List ContribRow))
    (qFiles : Except String (List FileRow))
    (qTags : Except String (List TagRow)) : Option String :=
  match connect with
  | .error e => some e
  | .ok _ =>
    match qDatabases with
    | .error e => some e
    | .ok _ =>
      match qUsers with
      | .error e => some e
      | .ok _ =>
        match qContributors with
        | .error e => some e
        | .ok _ =>
          match qFiles with
          | .error e => some e
          | .ok _ =>
            match qTags with
            | .error e => some e
            | .ok _ => none

/-- Lookup of a key in a JSON object (`none` on other JSON values). -/
def jLookup (j : Json) (k : String) : Option Json :=
  match j with
  | .obj kvs => (kvs.find? (fun kv => kv.1 == k)).map (fun kv => kv.2)
  | _ => none

/-- Whether a JSON object carries the key `isSelected` with value
`false`. -/
def hasIsSelectedFalse (j : Json) : Bool :=
  match jLookup j "isSelected" with
  | some (.bool false) => true
  | _ => false

/-! Concrete fixtures used to evaluate the model at specific inputs. -/

/-- A world in which every SDK operation succeeds; in particular both
resources already exist, so every existence probe reports success. -/
def okWorld : World :=
  { credential := .ok ()
    storageGetProps := fun _ _ => .ok ()
    storageBeginCreate := fun _ _ _ => .ok ()
    storageListKeys := fun _ _ => .ok "storage-key-1"
    cogGet := fun _ _ => .ok ()
    cogBeginCreate := fun _ _ _ => .ok ()
    cogListKeys := fun _ _ => .ok "admin-key-1"
    createOrUpdateIndex := fun _ _ => .ok () }

/-- An environment with the two mandatory variables set and every optional
variable absent (so every default applies). -/
def demoEnv : Env :=
  { azure_subscription_id := some "sub-1"
    azure_resource_group := some "rg-1"
    azure_location := none
    storage_account_base := none
    search_account_base := none
    search_index_name := none }

/-- `{"title": "My Docs! 2024"}` — a valid request body. -/
def demoBody : Json :=
  .obj [("title", .str "My Docs! 2024")]

/-- A database row with no optional data, owned by user `u1`. -/
def demoDbRow : DbRow :=
  { id := "db1", name := "first db", description := none, type := none,
    isPublic := 0, lastUpdated := none, documentCount := 0, usageCount := 0,
    rating := none, owner_id := "u1",
    vector_search_enabled := none, vector_search_endpoint := none,
    vector_search_key := none, vector_search_index := none,
    vector_search_semantic_config := none,
    vector_search_embedding_deployment := none,
    vector_search_embedding_endpoint := none,
    vector_search_embedding_key := none,
    vector_search_storage_endpoint := none,
    vector_search_storage_access_key := none,
    vector_search_storage_connection_string := none }

/-! Helper lemmas. -/

theorem buildGroupMap_foldl_apply (rows : List α) (keyOf : α → String) (valOf : α → β)
    (acc : String → List β) (k : String) :
    (rows.foldl (fun m r => fun x => if x = keyOf r then m x ++ [valOf r] else m x) acc) k
      = acc k ++ (rows.filter fun r => decide (k = keyOf r)).map valOf := by
  induction rows generalizing acc with
  | nil => simp
  | cons r rs ih =>
    simp only [List.foldl_cons, List.filter_cons]
    rw [ih]
    by_cases h : k = keyOf r
    · simp [h]
    · simp [h]

theorem buildGroupMap_apply (rows : List α) (keyOf : α → String) (valOf : α → β)
    (k : String) :
    buildGroupMap rows keyOf valOf k
      = (rows.filter fun r => decide (k = keyOf r)).map valOf := by
  unfold buildGroupMap
  rw [buildGroupMap_foldl_apply]
  simp

theorem buildGroupMap_eq_nil (rows : List α) (keyOf : α → String) (valOf : α → β)
    (k : String) (h : ∀ r ∈ rows, keyOf r ≠ k) :
    buildGroupMap rows keyOf valOf k = [] := by
  rw [buildGroupMap_apply]
  have : (rows.filter fun r => decide (k = keyOf r)) = [] := by
    rw [List.filter_eq_nil_iff]
    intro r hr
    simp only [decide_eq_true_eq]
    exact fun hk => h r hr hk.symm
  rw [this]
  rfl

theorem buildUsersMap_foldl_apply (users : List UserRow) (acc : String → Option String)
    (k : String) (h : ∀ u ∈ users, u.id ≠ k) :
    (users.foldl (fun m u => fun x => if x = u.id then some u.name else m x) acc) k
      = acc k := by
  induction users generalizing acc with
  | nil => rfl
  | cons u us ih =>
    simp only [List.foldl_cons]
    rw [ih _ (fun v hv => h v (List.mem_cons_of_mem _ hv))]
    have : k ≠ u.id := fun hk => h u (List.mem_cons_self _ _) hk.symm
    simp [this]

theorem buildUsersMap_eq_none (users : List UserRow) (k : String)
    (h : ∀ u ∈ users, u.id ≠ k) :
    buildUsersMap users k = none := by
  unfold buildUsersMap
  rw [buildUsersMap_foldl_apply users _ k h]

theorem storageNamesUsed_append (tr1 tr2 : List CloudCall) :
    storageNamesUsed (tr1 ++ tr2) = storageNamesUsed tr1 ++ storageNamesUsed tr2 := by
  unfold storageNamesUsed
  exact List.filterMap_append _ _ _

theorem searchNamesUsed_append (tr1 tr2 : List CloudCall) :
    searchNamesUsed (tr1 ++ tr2) = searchNamesUsed tr1 ++ searchNamesUsed tr2 := by
  unfold searchNamesUsed
  exact List.filterMap_append _ _ _

theorem indexesSent_append (tr1 tr2 : List CloudCall) :
    indexesSent (tr1 ++ tr2) = indexesSent tr1 ++ indexesSent tr2 := by
  unfold indexesSent
  exact List.filterMap_append _ _ _

theorem storageNamesUsed_create_storage (w : World) (rg n loc : String) :
    (storageNamesUsed (create_storage_account w rg n loc).2).all (fun x => x == n) = true := by
  unfold create_storage_account
  split <;> (try split) <;> (try split) <;>
    simp_all [storageNamesUsed, List.filterMap]

theorem searchNamesUsed_create_storage (w : World) (rg n loc : String) :
    searchNamesUsed (create_storage_account w rg n loc).2 = [] := by
  unfold create_storage_account
  split <;> (try split) <;> (try split) <;>
    simp [searchNamesUsed, List.filterMap]

theorem resolveAdminKey_trace (w : World) (rg sn : String) (ak : Option String)
    (r : Except String String) (ktr : List CloudCall)
    (h : resolveAdminKey w rg sn ak = (r, ktr)) :
    ktr = [] ∨ ktr = [CloudCall.cogListKeys rg sn] := by
  unfold resolveAdminKey at h
  split at h <;> (try split at h) <;> simp_all

theorem searchNamesUsed_vector_phase (w : World) (rg sn idx : String)
    (ak : Option String) (tr : List CloudCall)
    (h : (searchNamesUsed tr).all (fun x => x == sn) = true) :
    (searchNamesUsed (vector_index_phase w rg sn idx ak tr).2).all (fun x => x == sn) = true := by
  unfold vector_index_phase
  rcases hk : resolveAdminKey w rg sn ak with ⟨e | key, ktr⟩
  · rcases resolveAdminKey_trace w rg sn ak _ ktr hk with h0 | h0 <;> subst h0 <;>
      simp_all [searchNamesUsed_append, searchNamesUsed, List.filterMap]
  · dsimp only []
    cases hc : w.createOrUpdateIndex ("https://" ++ sn ++ ".search.windows.net")
        (buildSearchIndex idx) <;>
      rcases resolveAdminKey_trace w rg sn ak _ ktr hk with h0 | h0 <;> subst h0 <;>
      simp_all [searchNamesUsed_append, searchNamesUsed, List.filterMap]

theorem storageNamesUsed_vector_phase (w : World) (rg sn idx : String)
    (ak : Option String) (tr : List CloudCall)
    (h : storageNamesUsed tr = []) :
    storageNamesUsed (vector_index_phase w rg sn idx ak tr).2 = [] := by
  unfold vector_index_phase
  rcases hk : resolveAdminKey w rg sn ak with ⟨e | key, ktr⟩
  · rcases resolveAdminKey_trace w rg sn ak _ ktr hk with h0 | h0 <;> subst h0 <;>
      simp_all [storageNamesUsed_append, storageNamesUsed, List.filterMap]
  · dsimp only []
    cases hc : w.createOrUpdateIndex ("https://" ++ sn ++ ".search.windows.net")
        (buildSearchIndex idx) <;>
      rcases resolveAdminKey_trace w rg sn ak _ ktr hk with h0 | h0 <;> subst h0 <;>
      simp_all [storageNamesUsed_append, storageNamesUsed, List.filterMap]

theorem indexesSent_vector_phase (w : World) (rg sn idx : String)
    (ak : Option String) (tr : List CloudCall) :
    indexesSent (vector_index_phase w rg sn idx ak tr).2 = indexesSent tr ∨
    indexesSent (vector_index_phase w rg sn idx ak tr).2
      = indexesSent tr ++ [buildSearchIndex idx] := by
  unfold vector_index_phase
  rcases hk : resolveAdminKey w rg sn ak with ⟨e | key, ktr⟩
  · rcases resolveAdminKey_trace w rg sn ak _ ktr hk with h0 | h0 <;> subst h0 <;>
      simp_all [indexesSent_append, indexesSent, List.filterMap]
  · dsimp only []
    cases hc : w.createOrUpdateIndex ("https://" ++ sn ++ ".search.windows.net")
        (buildSearchIndex idx) <;>
      rcases resolveAdminKey_trace w rg sn ak _ ktr hk with h0 | h0 <;> subst h0 <;>
      simp_all [indexesSent_append, indexesSent, List.filterMap]

theorem searchNamesUsed_create_vector (w : World) (rg sn loc idx : String)
    (ak : Option String) :
    (searchNamesUsed (create_vector_database_and_index w rg sn loc idx ak).2).all
      (fun x => x == sn) = true := by
  unfold create_vector_database_and_index
  split <;> (try split) <;>
    first
      | (apply searchNamesUsed_vector_phase
         simp [searchNamesUsed, List.filterMap])
      | simp [searchNamesUsed, List.filterMap]

theorem storageNamesUsed_create_vector (w : World) (rg sn loc idx : String)
    (ak : Option String) :
    storageNamesUsed (create_vector_database_and_index w rg sn loc idx ak).2 = [] := by
  unfold create_vector_database_and_index
  split <;> (try split) <;>
    first
      | (apply storageNamesUsed_vector_phase
         simp [storageNamesUsed, List.filterMap])
      | simp [storageNamesUsed, List.filterMap]

theorem indexesSent_create_vector (w : World) (rg sn loc idx : String)
    (ak : Option String) :
    indexesSent (create_vector_database_and_index w rg sn loc idx ak).2 = [] ∨
    indexesSent (create_vector_database_and_index w rg sn loc idx ak).2
      = [buildSearchIndex idx] := by
  unfold create_vector_database_and_index
  split <;> (try split)
  case _ =>
    have h := indexesSent_vector_phase w rg sn idx ak
      [CloudCall.cogGet rg sn]
    simpa [indexesSent, List.filterMap] using h
  case _ => simp [indexesSent, List.filterMap]
  case _ h1 h2 =>
    have h := indexesSent_vector_phase w rg sn idx ak
      [CloudCall.cogGet rg sn,
       CloudCall.cogBeginCreate rg sn { location := loc, sku := "S1", kind := "Search" }]
    simpa [indexesSent, List.filterMap] using h

/-! Claim theorems. -/

/-- C2: for every title string, the sanitization step (line 61 of
`create_db/__init__.py`) produces a stem containing only lowercase
alphanumeric characters `[a-z0-9]` of length at most 20, and the title
`"My Docs! 2024"` yields the stem `"mydocs2024"`. -/
theorem c2_sanitize_stem_lower_alnum_max20 (title : String) :
    (sanitizeTitle title).data.all isLowerAlnum = true ∧
    (sanitizeTitle title).length ≤ 20 ∧
    sanitizeTitle "My Docs! 2024" = "mydocs2024" := by
  refine ⟨?_, ?_, by decide⟩
  · rw [List.all_eq_true]
    intro c hc
    have hc' : c ∈ (pyLower title).data.filter isLowerAlnum :=
      List.take_subset _ _ hc
    exact (List.mem_filter.mp hc').2
  · show (((pyLower title).data.filter isLowerAlnum).take 20).length ≤ 20
    exact List.length_take_le 20 _

/-- C3: the search index handed to `create_or_update_index` by
`create_vector_database_and_index` always has exactly the five fields of
lines 228-240 — `id` (string, key), `content` (string, searchable, analyzer
`en.lucene`), `metadata_author` (string, filterable, facetable),
`metadata_category` (string, filterable, facetable), `contentVector`
(collection of single-precision float, searchable, 1536 dimensions) — and
a single vector-search algorithm configuration named `my-vector-config` of
kind `hnsw` with `m = 4`, `efConstruction = 400`, `efSearch = 200`; every
index the provisioning step sends is exactly this one. -/
theorem c3_search_index_schema (index_name : String) (w : World)
    (rg sn loc : String) (ak : Option String) :
    (buildSearchIndex index_name).fields =
      [ { name := "id", type := .string, key := true },
        { name := "content", type := .string, searchable := true,
          analyzer_name := some "en.lucene" },
        { name := "metadata_author", type := .string, filterable := true, facetable := true },
        { name := "metadata_category", type := .string, filterable := true, facetable := true },
        { name := "contentVector", type := .collectionSingle, searchable := true,
          vector_search_dimensions := some 1536,
          vector_search_configuration := some "my-vector-config" } ] ∧
    (buildSearchIndex index_name).fields.length = 5 ∧
    (buildSearchIndex index_name).vector_search.algorithm_configurations =
      [{ name := "my-vector-config", kind := "hnsw",
         m := 4, efConstruction := 400, efSearch := 200 }] ∧
    (indexesSent (create_vector_database_and_index w rg sn loc index_name ak).2 = [] ∨
     indexesSent (create_vector_database_and_index w rg sn loc index_name ak).2
       = [buildSearchIndex index_name]) :=
  ⟨rfl, rfl, rfl, indexesSent_create_vector w rg sn loc index_name ak⟩

/-- C6: when the resource of the resolved name already exists (the
existence probe succeeds), each provisioning step succeeds, issues no
creation call — the trace is exactly probe, key retrieval and (for search)
the index create-or-update, with no `begin_create` — and still returns the
resource's key and endpoint. -/
theorem c6_provisioning_idempotent (w : World) (rg n loc sn idx k k2 : String)
    (h1 : w.storageGetProps rg n = .ok ())
    (h2 : w.storageListKeys rg n = .ok k)
    (h3 : w.cogGet rg sn = .ok ())
    (h4 : w.cogListKeys rg sn = .ok k2)
    (h5 : w.createOrUpdateIndex ("https://" ++ sn ++ ".search.windows.net")
            (buildSearchIndex idx) = .ok ()) :
    create_storage_account w rg n loc =
      (.ok { AZURE_STORAGE_URL := "https://" ++ n ++ ".blob.core.windows.net",
             AZURE_STORAGE_NAME := n, AZURE_STORAGE_KEY := k },
       [.storageGetProps rg n, .storageListKeys rg n]) ∧
    create_vector_database_and_index w rg sn loc idx none =
      (.ok { search_endpoint := "https://" ++ sn ++ ".search.windows.net",
             search_admin_key := k2, index_name := idx },
       [.cogGet rg sn, .cogListKeys rg sn,
        .mkSearchClient ("https://" ++ sn ++ ".search.windows.net"),
        .createOrUpdateIndex ("https://" ++ sn ++ ".search.windows.net")
          (buildSearchIndex idx)]) := by
  constructor
  · unfold create_storage_account
    rw [h1, h2]
  · unfold create_vector_database_and_index vector_index_phase resolveAdminKey
    rw [h3]
    simp only [pyFalsyOptStr]
    rw [h4, h5]
    simp

/-- C6 witness: both idempotent runs evaluated in `okWorld` (where both
resources exist) at concrete names. -/
theorem c6_provisioning_idempotent_witness :
    create_storage_account okWorld "rg-1" "mystorageacct1234" "eastus" =
      (.ok { AZURE_STORAGE_URL := "https://mystorageacct1234.blob.core.windows.net",
             AZURE_STORAGE_NAME := "mystorageacct1234",
             AZURE_STORAGE_KEY := "storage-key-1" },
       [.storageGetProps "rg-1" "mystorageacct1234",
        .storageListKeys "rg-1" "mystorageacct1234"]) ∧
    create_vector_database_and_index okWorld "rg-1" "mysearchacct1234" "eastus"
        "rag-vector-index" none =
      (.ok { search_endpoint := "https://mysearchacct1234.search.windows.net",
             search_admin_key := "admin-key-1", index_name := "rag-vector-index" },
       [.cogGet "rg-1" "mysearchacct1234",
        .cogListKeys "rg-1" "mysearchacct1234",
        .mkSearchClient "https://mysearchacct1234.search.windows.net",
        .createOrUpdateIndex "https://mysearchacct1234.search.windows.net"
          (buildSearchIndex "rag-vector-index")]) := by
  have h := c6_provisioning_idempotent okWorld "rg-1" "mystorageacct1234" "eastus"
    "mysearchacct1234" "rag-vector-index" "storage-key-1" "admin-key-1"
    rfl rfl rfl rfl rfl
  simpa using h

/-- C4 (amended): for every request whose body is a valid JSON object in
which `title` is missing, not a string, or blank after trimming, the
handler returns HTTP 400 with the fixed plain-text message and issues no
SDK call at all (empty trace: no client constructed, no management-plane
operation). -/
theorem c4_invalid_title_400 (kvs : List (String × Json)) (env : Env)
    (t1 t2 : Nat) (w : World) (t : Option Json)
    (ht : jGet (.obj kvs) "title" = .ok t)
    (hv : titleInvalid t = true) :
    create_db_main (.ok (.obj kvs)) env t1 t2 w =
      (.ok { body := .text "Missing or invalid 'title' in request body",
             mimetype := none, status := 400 }, []) := by
  have ht' : (kvs.find? (fun kv => kv.1 == "title")).map (fun kv => kv.2) = t := by
    simpa [jGet] using ht
  unfold create_db_main
  simp [jGet, ht', hv]

/-- C4 witness: the object body `{"title": "   "}` (blank after trimming)
gets the 400 response and an empty trace. -/
theorem c4_invalid_title_400_witness :
    create_db_main (.ok (.obj [("title", .str "   ")])) demoEnv 0 0 okWorld =
      (.ok { body := .text "Missing or invalid 'title' in request body",
             mimetype := none, status := 400 }, []) :=
  c4_invalid_title_400 [("title", .str "   ")] demoEnv 0 0 okWorld
    (some (.str "   ")) rfl (by decide)

/-- C4 counterexample to the claim as stated: the body `[]` is valid JSON
and has no `title`, but the handler does not return HTTP 400 — the
attribute lookup `req_body.get` raises an uncaught `AttributeError`
(line 53 sits outside every `try`), so no response is returned by `main`
at all. No SDK call is made. -/
theorem c4_nonobject_body_counterexample :
    create_db_main (.ok (.arr [])) demoEnv 0 0 okWorld =
      (.error "AttributeError: body object has no attribute get", []) ∧
    (create_db_main (.ok (.arr [])) demoEnv 0 0 okWorld).1 ≠
      .ok { body := .text "Missing or invalid 'title' in request body",
            mimetype := none, status := 400 } := by
  constructor
  · rfl
  · intro h
    simp [create_db_main, jGet] at h

/-- C5: for every request with a valid title, if the subscription-id or the
resource-group environment variable is absent, the handler returns HTTP 500
with the fixed plain-text message and issues no SDK call (empty trace: no
credential, no client, no management-plane operation). -/
theorem c5_missing_env_500 (kvs : List (String × Json)) (env : Env)
    (t1 t2 : Nat) (w : World) (t : Option Json)
    (ht : jGet (.obj kvs) "title" = .ok t)
    (hv : titleInvalid t = false)
    (henv : env.azure_subscription_id = none ∨ env.azure_resource_group = none) :
    create_db_main (.ok (.obj kvs)) env t1 t2 w =
      (.ok { body := .text "Missing required environment variables: AZURE_SUBSCRIPTION_ID or AZURE_RESOURCE_GROUP",
             mimetype := none, status := 500 }, []) := by
  have ht' : (kvs.find? (fun kv => kv.1 == "title")).map (fun kv => kv.2) = t := by
    simpa [jGet] using ht
  unfold create_db_main
  rcases henv with h | h <;>
    simp [jGet, ht', hv, h, pyFalsyOptStr]

/-- C5 witness: the valid body `{"title": "My Docs! 2024"}` with the
subscription id unset gets the 500 response and an empty trace. -/
theorem c5_missing_env_500_witness :
    create_db_main (.ok demoBody)
        { demoEnv with azure_subscription_id := none } 0 0 okWorld =
      (.ok { body := .text "Missing required environment variables: AZURE_SUBSCRIPTION_ID or AZURE_RESOURCE_GROUP",
             mimetype := none, status := 500 }, []) :=
  c5_missing_env_500 [("title", .str "My Docs! 2024")]
    { demoEnv with azure_subscription_id := none } 0 0 okWorld
    (some (.str "My Docs! 2024")) rfl (by decide) (Or.inl rfl)

/-- C1 (amended): for every request with a valid title, the candidate
resource names are the configured base prefixes — defaults
`"mystorageacct"` and `"mysearchacct"` — each suffixed with the unix time
observed at its own call site modulo 10000 (lines 82 and 90); every storage
management call in the trace uses the first name and every search
management call the second. The sanitized title plays no part in either
name. -/
theorem c1_names_from_base_and_time (kvs : List (String × Json)) (env : Env)
    (t1 t2 : Nat) (w : World) (t : Option Json)
    (ht : jGet (.obj kvs) "title" = .ok t)
    (hv : titleInvalid t = false)
    (hs : pyFalsyOptStr env.azure_subscription_id = false)
    (hr : pyFalsyOptStr env.azure_resource_group = false) :
    (storageNamesUsed (create_db_main (.ok (.obj kvs)) env t1 t2 w).2).all
      (fun x => x == timeSuffixedName (env.storage_account_base.getD "mystorageacct") t1)
        = true ∧
    (searchNamesUsed (create_db_main (.ok (.obj kvs)) env t1 t2 w).2).all
      (fun x => x == timeSuffixedName (env.search_account_base.getD "mysearchacct") t2)
        = true := by
  have ht' : (kvs.find? (fun kv => kv.1 == "title")).map (fun kv => kv.2) = t := by
    simpa [jGet] using ht
  unfold create_db_main
  simp only [jGet, ht', hv, hs, hr, Bool.false_or, Bool.or_self, if_false, Bool.false_eq_true]
  cases hcred : w.credential with
  | error e => simp [storageNamesUsed, searchNamesUsed, List.filterMap]
  | ok u =>
    rcases hsa : create_storage_account w (env.azure_resource_group.getD "")
        (timeSuffixedName (env.storage_account_base.getD "mystorageacct") t1)
        (env.azure_location.getD "eastus") with ⟨e1 | cfg1, tr1⟩
    · have hall := storageNamesUsed_create_storage w (env.azure_resource_group.getD "")
        (timeSuffixedName (env.storage_account_base.getD "mystorageacct") t1)
        (env.azure_location.getD "eastus")
      have hse := searchNamesUsed_create_storage w (env.azure_resource_group.getD "")
        (timeSuffixedName (env.storage_account_base.getD "mystorageacct") t1)
        (env.azure_location.getD "eastus")
      rw [hsa] at hall hse
      simp_all [storageNamesUsed_append, searchNamesUsed_append,
        storageNamesUsed, searchNamesUsed, List.filterMap]
    · rcases hvc : create_vector_database_and_index w (env.azure_resource_group.getD "")
          (timeSuffixedName (env.search_account_base.getD "mysearchacct") t2)
          (env.azure_location.getD "eastus") (env.search_index_name.getD "rag-vector-index")
          none with ⟨r2, tr2⟩
      have hall := storageNamesUsed_create_storage w (env.azure_resource_group.getD "")
        (timeSuffixedName (env.storage_account_base.getD "mystorageacct") t1)
        (env.azure_location.getD "eastus")
      have hse := searchNamesUsed_create_storage w (env.azure_resource_group.getD "")
        (timeSuffixedName (env.storage_account_base.getD "mystorageacct") t1)
        (env.azure_location.getD "eastus")
      have hst2 := storageNamesUsed_create_vector w (env.azure_resource_group.getD "")
        (timeSuffixedName (env.search_account_base.getD "mysearchacct") t2)
        (env.azure_location.getD "eastus") (env.search_index_name.getD "rag-vector-index")
        none
      have hsn2 := searchNamesUsed_create_vector w (env.azure_resource_group.getD "")
        (timeSuffixedName (env.search_account_base.getD "mysearchacct") t2)
        (env.azure_location.getD "eastus") (env.search_index_name.getD "rag-vector-index")
        none
      rw [hsa] at hall hse
      rw [hvc] at hst2 hsn2
      cases r2 <;>
        simp_all [storageNamesUsed_append, searchNamesUsed_append,
          storageNamesUsed, searchNamesUsed, List.filterMap]

/-- C1 counterexample to the claim as stated: for the valid title
`"My Docs! 2024"` with default prefixes and both call-site times 1234, the
storage management calls use the name `"mystorageacct1234"`, while the name
the claim prescribes — sanitized title plus suffix — is
`"mydocs20241234"`, a different string. The names are not derived from the
title. -/
theorem c1_names_counterexample :
    storageNamesUsed (create_db_main (.ok demoBody) demoEnv 1234 1234 okWorld).2 =
      ["mystorageacct1234", "mystorageacct1234"] ∧
    sanitizeTitle "My Docs! 2024" ++ toString (1234 % 10000) = "mydocs20241234" ∧
    ("mystorageacct1234" : String) ≠ "mydocs20241234" := by
  refine ⟨rfl, by decide, by decide⟩

/-- C1 witness: the amended theorem applied to the valid body
`{"title": "My Docs! 2024"}` in `okWorld` at times 1234/5678. -/
theorem c1_names_from_base_and_time_witness :
    (storageNamesUsed (create_db_main (.ok demoBody) demoEnv 1234 5678 okWorld).2).all
      (fun x => x == timeSuffixedName (demoEnv.storage_account_base.getD "mystorageacct") 1234)
        = true ∧
    (searchNamesUsed (create_db_main (.ok demoBody) demoEnv 1234 5678 okWorld).2).all
      (fun x => x == timeSuffixedName (demoEnv.search_account_base.getD "mysearchacct") 5678)
        = true :=
  c1_names_from_base_and_time [("title", .str "My Docs! 2024")] demoEnv 1234 5678 okWorld
    (some (.str "My Docs! 2024")) rfl (by decide) (by decide) (by decide)

theorem jLookup_entryToJson_contributors (e : CatalogEntry) :
    jLookup (entryToJson e) "contributors"
      = some (.arr (e.contributors.map fun p =>
          .obj [("id", .str p.id), ("name", .str p.name)])) := rfl

theorem jLookup_entryToJson_files (e : CatalogEntry) :
    jLookup (entryToJson e) "files"
      = some (.arr (e.files.map fun f =>
          .obj [("name", .str f.name), ("size", .num f.size),
                ("type", optStrJson f.type), ("uploadedAt", optStrJson f.uploadedAt)])) := rfl

theorem jLookup_entryToJson_tags (e : CatalogEntry) :
    jLookup (entryToJson e) "tags" = some (.arr (e.tags.map Json.str)) := rfl

/-- C7: for every database row, its entry is in the lister output; when no
contributor, file or tag row matches its id, the corresponding positions
are the empty sequence — `[]` in the entry, the JSON array `[]` (neither
null nor absent) under the keys `contributors`, `files` and `tags` of the
serialized entry; when no user row matches its `owner_id`, the owner's
name is `"Unknown"`; and the request still succeeds with HTTP 200. -/
theorem c7_lister_defaults (dbs : List DbRow) (users : List UserRow)
    (contribs : List ContribRow) (files : List FileRow) (tags : List TagRow)
    (db : DbRow) (hdb : db ∈ dbs) :
    assembleEntry (buildUsersMap users) (contributorsMapOf contribs)
        (filesMapOf files) (tagsMapOf tags) db
      ∈ listEntries dbs users contribs files tags ∧
    ((∀ c ∈ contribs, c.database_id ≠ db.id) →
     (∀ f ∈ files, f.database_id ≠ db.id) →
     (∀ t ∈ tags, t.database_id ≠ db.id) →
      (assembleEntry (buildUsersMap users) (contributorsMapOf contribs)
        (filesMapOf files) (tagsMapOf tags) db).contributors = [] ∧
      (assembleEntry (buildUsersMap users) (contributorsMapOf contribs)
        (filesMapOf files) (tagsMapOf tags) db).files = [] ∧
      (assembleEntry (buildUsersMap users) (contributorsMapOf contribs)
        (filesMapOf files) (tagsMapOf tags) db).tags = [] ∧
      jLookup (entryToJson (assembleEntry (buildUsersMap users) (contributorsMapOf contribs)
        (filesMapOf files) (tagsMapOf tags) db)) "contributors" = some (.arr []) ∧
      jLookup (entryToJson (assembleEntry (buildUsersMap users) (contributorsMapOf contribs)
        (filesMapOf files) (tagsMapOf tags) db)) "files" = some (.arr []) ∧
      jLookup (entryToJson (assembleEntry (buildUsersMap users) (contributorsMapOf contribs)
        (filesMapOf files) (tagsMapOf tags) db)) "tags" = some (.arr [])) ∧
    ((∀ u ∈ users, u.id ≠ db.owner_id) →
      (assembleEntry (buildUsersMap users) (contributorsMapOf contribs)
        (filesMapOf files) (tagsMapOf tags) db).owner.name = "Unknown") ∧
    (list_db_main (.ok ()) (.ok dbs) (.ok users) (.ok contribs) (.ok files)
      (.ok tags)).status = 200 := by
  refine ⟨?_, ?_, ?_, rfl⟩
  · exact List.mem_map_of_mem _ hdb
  · intro hc hf htg
    have hcm : contributorsMapOf contribs db.id = [] :=
      buildGroupMap_eq_nil contribs _ _ db.id hc
    have hfm : filesMapOf files db.id = [] :=
      buildGroupMap_eq_nil files _ _ db.id hf
    have htm : tagsMapOf tags db.id = [] :=
      buildGroupMap_eq_nil tags _ _ db.id htg
    refine ⟨?_, ?_, ?_, ?_, ?_, ?_⟩ <;>
      simp [assembleEntry, jLookup_entryToJson_contributors,
        jLookup_entryToJson_files, jLookup_entryToJson_tags, hcm, hfm, htm]
  · intro hu
    have := buildUsersMap_eq_none users db.owner_id hu
    simp [assembleEntry, this]

/-- C7 witness: a single database row with no contributors, files, tags or
users: empty collections, owner `"Unknown"`, HTTP 200. -/
theorem c7_lister_defaults_witness :
    assembleEntry (buildUsersMap []) (contributorsMapOf []) (filesMapOf [])
        (tagsMapOf []) demoDbRow
      ∈ listEntries [demoDbRow] [] [] [] [] ∧
    (assembleEntry (buildUsersMap []) (contributorsMapOf []) (filesMapOf [])
        (tagsMapOf []) demoDbRow).contributors = [] ∧
    (assembleEntry (buildUsersMap []) (contributorsMapOf []) (filesMapOf [])
        (tagsMapOf []) demoDbRow).files = [] ∧
    (assembleEntry (buildUsersMap []) (contributorsMapOf []) (filesMapOf [])
        (tagsMapOf []) demoDbRow).tags = [] ∧
    (assembleEntry (buildUsersMap []) (contributorsMapOf []) (filesMapOf [])
        (tagsMapOf []) demoDbRow).owner.name = "Unknown" ∧
    (list_db_main (.ok ()) (.ok [demoDbRow]) (.ok []) (.ok []) (.ok [])
      (.ok [])).status = 200 := by
  have h := c7_lister_defaults [demoDbRow] [] [] [] [] demoDbRow (by simp)
  refine ⟨h.1, ?_, ?_, ?_, ?_, h.2.2.2⟩
  · exact (h.2.1 (by simp) (by simp) (by simp)).1
  · exact (h.2.1 (by simp) (by simp) (by simp)).2.1
  · exact (h.2.1 (by simp) (by simp) (by simp)).2.2.1
  · exact h.2.2.1 (by simp)

/-- C8: whenever the connection attempt or any of the five queries of the
lister fails, the whole call returns HTTP 500 whose plain-text body is
exactly `"Error: "` followed by the first failure's message — it carries no
part of the catalog data. -/
theorem c8_query_failure_aborts (connect : Except String Unit)
    (q1 : Except String (List DbRow)) (q2 : Except String (List UserRow))
    (q3 : Except String (List ContribRow)) (q4 : Except String (List FileRow))
    (q5 : Except String (List TagRow)) (e : String)
    (h : firstQueryError connect q1 q2 q3 q4 q5 = some e) :
    list_db_main connect q1 q2 q3 q4 q5 =
      { body := .text ("Error: " ++ e), mimetype := none, status := 500 } := by
  cases connect <;> cases q1 <;> cases q2 <;> cases q3 <;> cases q4 <;> cases q5 <;>
    simp_all [firstQueryError, list_db_main, exceptionResponse]

/-- C8 witness: a failure of the contributors query (the earlier queries
succeeding) yields exactly the 500 plain-text response. -/
theorem c8_query_failure_aborts_witness :
    list_db_main (.ok ()) (.ok [demoDbRow]) (.ok [])
        (.error "MySQL server has gone away") (.ok []) (.ok []) =
      { body := .text ("Error: " ++ "MySQL server has gone away"),
        mimetype := none, status := 500 } :=
  c8_query_failure_aborts (.ok ()) (.ok [demoDbRow]) (.ok [])
    (.error "MySQL server has gone away") (.ok []) (.ok [])
    "MySQL server has gone away" rfl

/-- C10: every entry of the lister output carries `isSelected`, and its
value is always `false`: in the entries themselves and under the
`"isSelected"` key of every serialized entry, for all inputs. -/
theorem c10_isSelected_always_false (dbs : List DbRow) (users : List UserRow)
    (contribs : List ContribRow) (files : List FileRow) (tags : List TagRow) :
    (listEntries dbs users contribs files tags).all
      (fun e => e.isSelected == false) = true ∧
    ((listEntries dbs users contribs files tags).map entryToJson).all
      hasIsSelectedFalse = true := by
  constructor
  · rw [List.all_eq_true]
    intro x hx
    simp only [listEntries, List.mem_map] at hx
    obtain ⟨db, hdb, rfl⟩ := hx
    rfl
  · rw [List.all_eq_true]
    intro x hx
    simp only [listEntries, List.map_map, List.mem_map] at hx
    obtain ⟨db, hdb, rfl⟩ := hx
    rfl

/-- C9 (amended): in both handlers, every failure response is a plain-text
body with a status code and no structured error payload (no JSON body, no
mimetype); the 400 and missing-configuration bodies are fixed strings, but
the catch-all 500 bodies are `"Error: "` followed by the underlying
exception's message verbatim, so the underlying failure text does reach the
caller. -/
theorem c9_errors_plain_text :
    (∀ (body : Except Unit Json) (env : Env) (t1 t2 : Nat) (w : World) (r : HttpResponse),
       (create_db_main body env t1 t2 w).1 = .ok r → r.status ≠ 200 →
       r.mimetype = none ∧ r.body.isText = true) ∧
    (∀ (connect : Except String Unit) (q1 : Except String (List DbRow))
       (q2 : Except String (List UserRow)) (q3 : Except String (List ContribRow))
       (q4 : Except String (List FileRow)) (q5 : Except String (List TagRow)),
       (list_db_main connect q1 q2 q3 q4 q5).status ≠ 200 →
       (list_db_main connect q1 q2 q3 q4 q5).mimetype = none ∧
       (list_db_main connect q1 q2 q3 q4 q5).body.isText = true) := by
  constructor
  · intro body env t1 t2 w r h hne
    unfold create_db_main at h
    repeat' split at h
    all_goals try (by_cases hc : pyFalsyOptStr env.azure_subscription_id = true ∨
        pyFalsyOptStr env.azure_resource_group = true <;>
      simp only [hc, if_true, if_false, ite_true, ite_false] at h)
    all_goals repeat' split at h
    all_goals try cases h
    all_goals simp_all [exceptionResponse, BodyContent.isText]
  · intro connect q1 q2 q3 q4 q5 hne
    cases connect <;> cases q1 <;> cases q2 <;> cases q3 <;> cases q4 <;> cases q5 <;>
      simp_all [list_db_main, exceptionResponse, BodyContent.isText]

/-- C9 witness: the amended theorem applied to a malformed-JSON request
(400 plain text) and to a failed lister connection (500 plain text). -/
theorem c9_errors_plain_text_witness :
    (({ body := .text "Invalid JSON body", mimetype := none,
        status := 400 } : HttpResponse).mimetype = none ∧
     ({ body := .text "Invalid JSON body", mimetype := none,
        status := 400 } : HttpResponse).body.isText = true) ∧
    ((list_db_main (.error "boom") (.ok []) (.ok []) (.ok []) (.ok [])
        (.ok [])).mimetype = none ∧
     (list_db_main (.error "boom") (.ok []) (.ok []) (.ok []) (.ok [])
        (.ok [])).body.isText = true) :=
  ⟨c9_errors_plain_text.1 (.error ()) demoEnv 0 0 okWorld
     { body := .text "Invalid JSON body", mimetype := none, status := 400 }
     rfl (by decide),
   c9_errors_plain_text.2 (.error "boom") (.ok []) (.ok []) (.ok []) (.ok [])
     (.ok []) (by decide)⟩

/-- C9 counterexample to the claim as stated: the surfaced message is not
generic — the catch-all handler embeds the underlying exception's message
verbatim in the body (`f"Error: {e}"`), so the internal failure detail
reaches the caller and different internal failures produce different
bodies. -/
theorem c9_errors_counterexample :
    list_db_main (.error "Access denied for user admin at db-internal-host")
        (.ok []) (.ok []) (.ok []) (.ok []) (.ok []) =
      { body := .text ("Error: " ++ "Access denied for user admin at db-internal-host"),
        mimetype := none, status := 500 } ∧
    list_db_main (.error "Access denied for user admin at db-internal-host")
        (.ok []) (.ok []) (.ok []) (.ok []) (.ok []) ≠
      list_db_main (.error "connection timed out")
        (.ok []) (.ok []) (.ok []) (.ok []) (.ok []) := by
  constructor
  · rfl
  · intro h
    have hb := congrArg HttpResponse.body h
    simp [list_db_main, exceptionResponse] at hb

end Gitgpt
